import Mathlib

/-!
Shallow embedding of the tentbox DHT22 sensor manager
(src/go/dht22/dht22.go) and verification of the specification claims
about it.

The embedding covers:
* the `DHT22` handle struct, its constructor and mutators;
* the driver call result and `DHT22.read`;
* the `Manager` struct, `NewManager`, `AddSensor`, and the JSON
  serialization performed by `Manager.String`;
* a small operational model of `StartReadCycle` / `StopReadCycle` and
  the goroutine they spawn (channel store + goroutine phases), needed
  for the lifecycle claims;
* a field-access model of the unsynchronized reads and writes of the
  handle fields, needed for the snapshot-tearing claim.
-/

/-- Go float64 values carried by the sensor readings.  The program only
stores readings and serializes them (no floating-point arithmetic is ever
performed on them: the single conversion float64(x) from float32 is an
exact injection), so rationals model them faithfully. -/
abbrev Float64 := Rat

/-- The DHT22 struct (dht22.go lines 12-19): an unexported pin, exported
Name, Location, Temp, Humidity with JSON tags "name", "location", "temp",
"humidity".  The embedded sync.RWMutex is a synchronization primitive,
not data; its use (and non-use) is modelled separately for the
concurrency claim. -/
structure DHT22 where
  pin : Int
  Name : String
  Location : String
  Temp : Float64
  Humidity : Float64
deriving DecidableEq, Repr

/-- NewDHT22 (dht22.go lines 21-27): sets pin, Name, Location; Temp and
Humidity are left at the Go zero value 0. -/
def NewDHT22 (pin : Int) (name : String) (location : String) : DHT22 :=
  { pin := pin, Name := name, Location := location, Temp := 0, Humidity := 0 }

/-- SetName (dht22.go lines 29-33); the lock/unlock pair around the store
is modelled in the field-access model below. -/
def DHT22.SetName (d : DHT22) (name : String) : DHT22 :=
  { d with Name := name }

/-- SetLocation (dht22.go lines 35-39). -/
def DHT22.SetLocation (d : DHT22) (location : String) : DHT22 :=
  { d with Location := location }

/-- Outcome of the driver call dht.ReadDHTxxWithRetry(dht.DHT22, pin,
false, 3) (dht22.go line 42): a temperature/humidity pair, or an error
together with the number of attempts made. -/
inductive DriverResult where
  | ok (temperature humidity : Float64)
  | err (retried : Nat)
deriving DecidableEq, Repr

/-- DHT22.read (dht22.go lines 41-49).  On error it prints a message to
stdout and returns, leaving every field of the handle unchanged; the
struct has no field in which the failure could be recorded.  On success
it stores the converted temperature and humidity.  It never panics. -/
def DHT22.read (d : DHT22) (res : DriverResult) : DHT22 :=
  match res with
  | .err _ => d
  | .ok t h => { d with Temp := t, Humidity := h }

/-- Go map lookup m[k] on the association-list model of map[int]*DHT22. -/
def mapLookup (k : Int) : List (Int × DHT22) → Option DHT22
  | [] => none
  | (k2, v) :: rest => if k = k2 then some v else mapLookup k rest

/-- Go map store m[k] = v: replaces the entry for k when present,
otherwise adds one. -/
def mapInsert (k : Int) (v : DHT22) : List (Int × DHT22) → List (Int × DHT22)
  | [] => [(k, v)]
  | (k2, v2) :: rest =>
      if k = k2 then (k, v) :: rest else (k2, v2) :: mapInsert k v rest

/-- The Manager struct (dht22.go lines 51-54): the Sensors map (tagged
"dht22") and the stopReading channel.  A Go channel value is either nil
(Option.none, the zero value) or a reference into the channel store of
the runtime model below (Option.some id). -/
structure Manager where
  Sensors : List (Int × DHT22)
  stopReading : Option Nat
deriving DecidableEq, Repr

/-- NewManager (dht22.go lines 56-60): empty map, and stopReading left
at its zero value nil. -/
def NewManager : Manager :=
  { Sensors := [], stopReading := none }

/-- AddSensor (dht22.go lines 62-64): dm.Sensors[dht.pin] = dht.  No
check for a pre-existing entry, no error return. -/
def Manager.AddSensor (dm : Manager) (d : DHT22) : Manager :=
  { dm with Sensors := mapInsert d.pin d dm.Sensors }

/-- One pass of the inner loop (dht22.go lines 77-79): for each sensor
in the map, call read.  The driver oracle gives the outcome of the
hardware call for each pin. -/
def Manager.readAll (dm : Manager) (driver : Int → DriverResult) : Manager :=
  { dm with Sensors := dm.Sensors.map (fun pd => (pd.1, pd.2.read (driver pd.1))) }

/-- JSON values, as produced by encoding/json on this data. -/
inductive Json where
  | str (s : String)
  | num (x : Float64)
deriving DecidableEq, Repr

/-- The JSON object encoding/json produces for one DHT22 (dht22.go lines
12-19): the exported fields in declaration order under their tags.  The
unexported pin is skipped, and the embedded sync.RWMutex contributes no
exported fields.  There is no field for errors. -/
def DHT22.marshal (d : DHT22) : List (String × Json) :=
  [("name", Json.str d.Name), ("location", Json.str d.Location),
   ("temp", Json.num d.Temp), ("humidity", Json.num d.Humidity)]

/-- The structure of the string returned by Manager.String (dht22.go
lines 89-92), json.Marshal of the Manager: under the single key "dht22",
the Sensors map keyed by pin, each handle marshalled as above.  The model
keeps the entries in map-content order; encoding/json prints Go map keys
sorted, but no claim concerns the textual order of entries, only which
entries and fields are present. -/
def Manager.Snapshot (dm : Manager) : List (Int × List (String × Json)) :=
  dm.Sensors.map (fun pd => (pd.1, pd.2.marshal))

/-- Registering a list of freshly constructed sensors on a fresh manager:
for each descriptor (pin, name, location), AddSensor (NewDHT22 ...). -/
def registerAll (descs : List (Int × String × String)) : Manager :=
  descs.foldl (fun dm x => dm.AddSensor (NewDHT22 x.1 x.2.1 x.2.2)) NewManager

/-! ### Runtime model of the read cycle

StartReadCycle (dht22.go lines 66-83) makes a fresh stop channel and
spawns a goroutine; the goroutine blocks in a select between the stop
channel and the ticker.  If the ticker fires first, the goroutine enters
an inner unconditional for-loop that reads every sensor and sleeps, and
from then on never consults the ticker or the stop channel again.
StopReadCycle (dht22.go lines 85-87) closes the current stop channel.

The model keeps a store of channels (open or closed) and the phase of
every spawned goroutine. -/

/-- State of one stop channel: open, or closed by StopReadCycle. -/
inductive ChanState where
  | opened
  | closed
deriving DecidableEq, Repr

/-- Go runtime panics that close(ch) can raise. -/
inductive GoPanic where
  | closeOfNilChannel
  | closeOfClosedChannel
deriving DecidableEq, Repr

/-- Phase of a goroutine spawned by StartReadCycle: waiting at the
select (dht22.go lines 69-74), running the inner for-loop (lines 76-81),
or returned. -/
inductive Phase where
  | selecting
  | looping
  | exited
deriving DecidableEq, Repr

/-- The manager together with the runtime state its code manipulates:
the channels created so far and the goroutines spawned so far. -/
structure Sys where
  dm : Manager
  chans : List ChanState
  goroutines : List Phase
deriving DecidableEq, Repr

/-- A freshly created manager with no runtime activity. -/
def initSys : Sys :=
  { dm := NewManager, chans := [], goroutines := [] }

/-- AddSensor lifted to the runtime state. -/
def Sys.AddSensor (s : Sys) (d : DHT22) : Sys :=
  { s with dm := s.dm.AddSensor d }

/-- StartReadCycle (dht22.go lines 66-83): unconditionally overwrite
dm.stopReading with a fresh open channel and spawn a new goroutine at
its select.  There is no check of a current cycle and no error return:
the function always succeeds. -/
def Sys.StartReadCycle (s : Sys) : Sys :=
  { dm := { s.dm with stopReading := some s.chans.length },
    chans := s.chans ++ [ChanState.opened],
    goroutines := s.goroutines ++ [Phase.selecting] }

/-- StopReadCycle (dht22.go lines 85-87): close(dm.stopReading).  In Go,
close of a nil channel and close of an already-closed channel both
panic; otherwise the channel is marked closed and close returns at once
(it does not wait for any goroutine). -/
def Sys.StopReadCycle (s : Sys) : Except GoPanic Sys :=
  match s.dm.stopReading with
  | none => .error .closeOfNilChannel
  | some c =>
    match s.chans.get? c with
    | some .opened => .ok { s with chans := s.chans.set c .closed }
    | _ => .error .closeOfClosedChannel

/-- Replace the phase of goroutine i. -/
def Sys.setPhase (s : Sys) (i : Nat) (p : Phase) : Sys :=
  { s with goroutines := s.goroutines.set i p }

/-- The ticker case of the select (dht22.go line 75): goroutine i,
waiting at the select, receives a tick and enters the inner loop. -/
def Sys.resolveTick (s : Sys) (i : Nat) : Sys :=
  if (s.goroutines.get? i) = some Phase.selecting then
    s.setPhase i Phase.looping
  else s

/-- The stop case of the select (dht22.go lines 70-73): goroutine i,
waiting at the select, observes the stop channel closed (a receive from
a closed channel is immediately ready), stops the ticker and returns.
This case can fire only while the goroutine is still at the select;
once it has entered the inner loop it never examines the channel
again. -/
def Sys.resolveStop (s : Sys) (i : Nat) : Sys :=
  if (s.goroutines.get? i) = some Phase.selecting
      ∧ s.dm.stopReading.bind s.chans.get? = some ChanState.closed then
    s.setPhase i Phase.exited
  else s

/-- One iteration of the inner for-loop (dht22.go lines 76-81) by
goroutine i: enabled exactly when that goroutine is in the loop; it
reads every sensor in the map and then sleeps.  The iteration condition
is the constant true: neither a closed stop channel nor the ticker nor
anything else is consulted, so after the pass the goroutine is still in
the loop. -/
def Sys.passStep (s : Sys) (i : Nat) (driver : Int → DriverResult) : Sys :=
  if (s.goroutines.get? i) = some Phase.looping then
    { s with dm := s.dm.readAll driver }
  else s

/-! ### Field-access model for snapshot tearing

SetName and SetLocation take the embedded RWMutex, but DHT22.read
(dht22.go lines 46-47) writes Temp and then Humidity holding no lock,
and json.Marshal inside Manager.String (dht22.go line 90) reads the
fields by reflection, also holding no lock.  These unsynchronized
accesses are modelled as atomic field operations; any interleaving of
them is possible. -/

/-- The Temp/Humidity fields of one handle as shared memory. -/
structure Fields where
  temp : Float64
  humidity : Float64
deriving DecidableEq, Repr

/-- One unsynchronized field write performed by DHT22.read. -/
inductive Access where
  | wTemp (v : Float64)
  | wHum (v : Float64)
deriving DecidableEq, Repr

/-- Effect of one field write. -/
def applyAccess (c : Fields) : Access → Fields
  | .wTemp v => { c with temp := v }
  | .wHum v => { c with humidity := v }

/-- Run a sequence of field writes. -/
def runAccesses (c : Fields) (ops : List Access) : Fields :=
  ops.foldl applyAccess c

/-- The write sequence of one successful DHT22.read call (dht22.go lines
46-47): store Temp, then store Humidity, with no lock held. -/
def readWrites (t h : Float64) : List Access :=
  [Access.wTemp t, Access.wHum h]

/-! ## Helper lemmas -/

/-- Storing under a key absent from the map appends the new entry. -/
theorem mapInsert_fresh (k : Int) (v : DHT22) (m : List (Int × DHT22))
    (h : k ∉ m.map Prod.fst) : mapInsert k v m = m ++ [(k, v)] := by
  induction m with
  | nil => rfl
  | cons hd tl ih =>
      simp only [List.map_cons, List.mem_cons] at h
      push_neg at h
      simp only [mapInsert, if_neg h.1, List.cons_append, List.cons.injEq, true_and]
      exact ih h.2

/-- Folding AddSensor over descriptors with fresh, pairwise distinct
pins appends the corresponding fresh handles in order. -/
theorem foldl_addSensor_fresh (descs : List (Int × String × String))
    (dm : Manager)
    (hdist : (descs.map Prod.fst).Nodup)
    (hfresh : ∀ p ∈ descs.map Prod.fst, p ∉ dm.Sensors.map Prod.fst) :
    (descs.foldl (fun m x => m.AddSensor (NewDHT22 x.1 x.2.1 x.2.2)) dm).Sensors
      = dm.Sensors ++ descs.map (fun x => (x.1, NewDHT22 x.1 x.2.1 x.2.2)) := by
  induction descs generalizing dm with
  | nil => simp
  | cons hd tl ih =>
      simp only [List.map_cons, List.nodup_cons] at hdist
      have hhd : hd.1 ∉ dm.Sensors.map Prod.fst := by
        exact hfresh hd.1 (by simp)
      have hstep : (dm.AddSensor (NewDHT22 hd.1 hd.2.1 hd.2.2)).Sensors
          = dm.Sensors ++ [(hd.1, NewDHT22 hd.1 hd.2.1 hd.2.2)] := by
        simpa [Manager.AddSensor, NewDHT22] using
          mapInsert_fresh hd.1 (NewDHT22 hd.1 hd.2.1 hd.2.2) dm.Sensors hhd
      have hfresh2 : ∀ p ∈ tl.map Prod.fst,
          p ∉ (dm.AddSensor (NewDHT22 hd.1 hd.2.1 hd.2.2)).Sensors.map Prod.fst := by
        intro p hp
        rw [hstep]
        simp only [List.map_append, List.mem_append, List.map_cons]
        push_neg
        refine ⟨hfresh p (by simp [hp]), ?_⟩
        simp only [List.map_nil, List.map_cons, List.mem_cons]
        push_neg
        refine ⟨?_, by simp⟩
        intro hcontra
        exact hdist.1 (hcontra ▸ hp)
      have := ih (dm.AddSensor (NewDHT22 hd.1 hd.2.1 hd.2.2)) hdist.2 hfresh2
      simp only [List.foldl_cons, this, hstep, List.map_cons, List.append_assoc,
        List.singleton_append]

/-- AddSensor folded over a runtime state never touches stopReading. -/
theorem foldl_sysAddSensor_stopReading (ds : List DHT22) (s : Sys) :
    (ds.foldl Sys.AddSensor s).dm.stopReading = s.dm.stopReading := by
  induction ds generalizing s with
  | nil => rfl
  | cons hd tl ih => simpa [Sys.AddSensor, Manager.AddSensor] using ih _

/-- Lookup after a map store: the stored key now maps to the new value,
every other key is unaffected. -/
theorem mapLookup_mapInsert (k p : Int) (v : DHT22) (m : List (Int × DHT22)) :
    mapLookup k (mapInsert p v m) = if k = p then some v else mapLookup k m := by
  induction m with
  | nil => simp [mapInsert, mapLookup]
  | cons hd tl ih =>
      obtain ⟨k2, v2⟩ := hd
      simp only [mapInsert]
      by_cases hp : p = k2
      · subst hp
        by_cases hk : k = p <;> simp [mapLookup, hk]
      · by_cases hk : k = k2 <;> by_cases hkp : k = p <;>
          simp_all [mapLookup]

/-! ## Claims -/

/-- Claim C1: the spec demands that after StopReadCycle returns no
further read begins and the reading values are frozen.  The code
violates this: StopReadCycle merely closes the channel and returns at
once, and a goroutine that has already taken its first tick is inside
the inner loop, which never consults the channel; a pass still runs
after Stop has returned and overwrites the readings. -/
theorem tb_c1_stop_not_frozen :
    ∃ s3 : Sys,
      (((initSys.AddSensor (NewDHT22 19 "top of tent" "tent")).StartReadCycle).resolveTick 0).StopReadCycle
        = Except.ok s3
      ∧ (mapLookup 19 s3.dm.Sensors).map DHT22.Temp = some 0
      ∧ (mapLookup 19 (s3.passStep 0 (fun _ => DriverResult.ok 21.5 40)).dm.Sensors).map DHT22.Temp
          = some 21.5 := by
  exact ⟨_, rfl, rfl, rfl⟩

/-- Claim C2: the spec demands tick-driven passes with the stop signal
able to end the loop between passes.  In the code, once the first tick
has moved the goroutine into the inner loop, the closed stop channel is
never looked at again (resolveStop is a no-op outside the select), and
pass after pass keeps running with the goroutine still in the loop. -/
theorem tb_c2_loop_ignores_stop :
    ∃ s3 : Sys,
      (((initSys.AddSensor (NewDHT22 19 "top of tent" "tent")).StartReadCycle).resolveTick 0).StopReadCycle
        = Except.ok s3
      ∧ s3.chans = [ChanState.closed]
      ∧ s3.resolveStop 0 = s3
      ∧ (s3.passStep 0 (fun _ => DriverResult.ok 21.5 40)).goroutines.get? 0
          = some Phase.looping
      ∧ ((s3.passStep 0 (fun _ => DriverResult.ok 21.5 40)).passStep 0
            (fun _ => DriverResult.ok 21.5 40)).goroutines.get? 0
          = some Phase.looping := by
  exact ⟨_, rfl, rfl, rfl, rfl, rfl⟩

/-- Claim C3 (counterexample): AddSensor with an address already present
does not leave the mapping unchanged and returns no error: the second
handle replaces the first. -/
theorem tb_c3_duplicate_overwrites_cex :
    ((NewManager.AddSensor (NewDHT22 4 "Living Room" "Home")).AddSensor
        (NewDHT22 4 "Bedroom" "Home")).Sensors
      = [(4, NewDHT22 4 "Bedroom" "Home")]
    ∧ NewDHT22 4 "Bedroom" "Home" ≠ NewDHT22 4 "Living Room" "Home" := by
  exact ⟨rfl, by decide⟩

/-- Claim C3 (amended): AddSensor on an address that is already present
replaces the stored handle with the new one and signals no error (the
function has no error return); entries under every other address are
unchanged. -/
theorem tb_c3_amended (dm : Manager) (d : DHT22) (k : Int) :
    mapLookup k (dm.AddSensor d).Sensors
      = if k = d.pin then some d else mapLookup k dm.Sensors := by
  simpa [Manager.AddSensor] using mapLookup_mapInsert k d.pin d dm.Sensors

/-- Claim C4 (counterexample): after a driver failure, read leaves the
handle entirely unchanged; in particular no lastError is recorded with
the attempt count — the handle has no such field, and its snapshot entry
carries no lastError key and is identical to the entry before the
failure. -/
theorem tb_c4_failure_unrecorded_cex :
    (let d : DHT22 :=
      { pin := 4, Name := "Living Room", Location := "Home", Temp := 20, Humidity := 35 }
     d.read (DriverResult.err 3) = d
     ∧ (d.read (DriverResult.err 3)).marshal.lookup "lastError" = none
     ∧ (d.read (DriverResult.err 3)).marshal = d.marshal) := by
  exact ⟨rfl, rfl, rfl⟩

/-- Claim C4 (amended): read after a driver failure leaves the handle
unchanged — the prior temperature and humidity are retained, the failure
is only printed to stdout, nothing is recorded on the handle (no
lastError key ever appears in its snapshot entry) — and no panic occurs
(read is a total function); read after a driver success replaces Temp
and Humidity and leaves the identity fields unchanged. -/
theorem tb_c4_amended (d : DHT22) (n : Nat) (t h : Float64) :
    d.read (DriverResult.err n) = d
    ∧ (d.read (DriverResult.err n)).marshal.lookup "lastError" = none
    ∧ (d.read (DriverResult.ok t h)).Temp = t
    ∧ (d.read (DriverResult.ok t h)).Humidity = h
    ∧ (d.read (DriverResult.ok t h)).Name = d.Name
    ∧ (d.read (DriverResult.ok t h)).Location = d.Location
    ∧ (d.read (DriverResult.ok t h)).pin = d.pin := by
  exact ⟨rfl, rfl, rfl, rfl, rfl, rfl, rfl⟩

/-- Claim C5: registering any sequence of freshly constructed sensors
with pairwise distinct pins on a fresh manager yields a snapshot whose
entries are exactly the registered addresses, each carrying the marshal
of the initial handle; and the initial handle always marshals with
temp 0 and humidity 0. -/
theorem tb_c5_register_snapshot (descs : List (Int × String × String))
    (hdist : (descs.map Prod.fst).Nodup) :
    (registerAll descs).Snapshot
      = descs.map (fun x => (x.1, (NewDHT22 x.1 x.2.1 x.2.2).marshal))
    ∧ ∀ p n l, ((NewDHT22 p n l).marshal).lookup "temp" = some (Json.num 0)
        ∧ ((NewDHT22 p n l).marshal).lookup "humidity" = some (Json.num 0) := by
  refine ⟨?_, fun p n l => ⟨rfl, rfl⟩⟩
  have h := foldl_addSensor_fresh descs NewManager hdist (by simp [NewManager])
  simp only [registerAll, Manager.Snapshot]
  rw [h]
  simp [NewManager, List.map_map, Function.comp]

/-- Claim C5 (witness): two concrete sensors with distinct pins. -/
theorem tb_c5_register_snapshot_witness :
    (registerAll [(4, "Living Room", "Home"), (19, "top of tent", "tent")]).Snapshot
      = [(4, (NewDHT22 4 "Living Room" "Home").marshal),
         (19, (NewDHT22 19 "top of tent" "tent").marshal)]
    ∧ ∀ p n l, ((NewDHT22 p n l).marshal).lookup "temp" = some (Json.num 0)
        ∧ ((NewDHT22 p n l).marshal).lookup "humidity" = some (Json.num 0) :=
  tb_c5_register_snapshot [(4, "Living Room", "Home"), (19, "top of tent", "tent")]
    (by decide)

/-- Claim C6 (counterexample): a snapshot entry does not carry a field
named temperature — the field is tagged temp. -/
theorem tb_c6_field_names_cex :
    "temperature" ∉ ((NewDHT22 4 "Living Room" "Home").marshal.map Prod.fst)
    ∧ (NewDHT22 4 "Living Room" "Home").marshal.map Prod.fst
        = ["name", "location", "temp", "humidity"] := by
  exact ⟨by decide, rfl⟩

/-- Claim C6 (amended): the snapshot is keyed by address, and every
handle marshals to exactly the fields name, location, temp, humidity in
that order; no lastError field ever appears (the struct has none, so
failures are never visible in the snapshot). -/
theorem tb_c6_amended (dm : Manager) :
    dm.Snapshot.map Prod.fst = dm.Sensors.map Prod.fst
    ∧ (∀ d : DHT22, d.marshal.map Prod.fst = ["name", "location", "temp", "humidity"])
    ∧ (∀ d : DHT22, d.marshal.lookup "lastError" = none) := by
  refine ⟨?_, fun d => rfl, fun d => rfl⟩
  simp [Manager.Snapshot, List.map_map]

/-- Claim C7 (counterexample): StartReadCycle on an already-started
manager is neither an error nor a no-op: it changes the state and a
second polling goroutine now exists. -/
theorem tb_c7_double_start_cex :
    (initSys.StartReadCycle.StartReadCycle).goroutines
      = [Phase.selecting, Phase.selecting]
    ∧ initSys.StartReadCycle.StartReadCycle ≠ initSys.StartReadCycle := by
  exact ⟨rfl, by decide⟩

/-- Claim C7 (amended): StartReadCycle always returns normally (no error
path exists in its type); each call replaces stopReading with a fresh
open channel, leaves the sensor map alone, and spawns one more polling
goroutine, so n calls leave n goroutines running. -/
theorem tb_c7_amended (s : Sys) (n : Nat) :
    (Sys.StartReadCycle^[n] s).goroutines.length = s.goroutines.length + n
    ∧ (Sys.StartReadCycle s).dm.stopReading = some s.chans.length
    ∧ (Sys.StartReadCycle s).dm.Sensors = s.dm.Sensors := by
  refine ⟨?_, rfl, rfl⟩
  induction n with
  | zero => simp
  | succ k ih =>
      rw [Function.iterate_succ_apply']
      have hstep : (Sys.StartReadCycle (Sys.StartReadCycle^[k] s)).goroutines.length
          = (Sys.StartReadCycle^[k] s).goroutines.length + 1 := by
        simp [Sys.StartReadCycle]
      omega

/-- Claim C8: a second StopReadCycle after a successful one closes an
already-closed channel, which panics in Go instead of no-oping or
returning an error. -/
theorem tb_c8_double_stop_panics :
    ∃ s2 : Sys,
      initSys.StartReadCycle.StopReadCycle = Except.ok s2
      ∧ s2.StopReadCycle = Except.error GoPanic.closeOfClosedChannel := by
  exact ⟨_, rfl, rfl⟩

/-- Claim C9: because read and the marshalling in Manager.String touch
Temp and Humidity with no lock held, the two field reads of a snapshot
can interleave between two read calls: the snapshot then pairs the
temperature of the first refresh with the humidity of the second, a
value matching neither mutation event. -/
theorem tb_c9_torn_snapshot :
    (runAccesses ⟨0, 0⟩ (readWrites 21.5 40)).temp = 21.5
    ∧ (runAccesses (runAccesses ⟨0, 0⟩ (readWrites 21.5 40)) (readWrites 22.5 41)).humidity = 41
    ∧ ((21.5 : Float64), (41 : Float64)) ≠ (21.5, 40)
    ∧ ((21.5 : Float64), (41 : Float64)) ≠ (22.5, 41) := by
  refine ⟨rfl, rfl, by norm_num [Prod.ext_iff], by norm_num [Prod.ext_iff]⟩

/-- Claim C10: on a manager fresh from NewManager, with any sensors
added but StartReadCycle never called, the stopReading field is still
nil, so StopReadCycle is close(nil) and panics. -/
theorem tb_c10_stop_before_start_panics (ds : List DHT22) :
    (ds.foldl Sys.AddSensor initSys).dm.stopReading = none
    ∧ (ds.foldl Sys.AddSensor initSys).StopReadCycle
        = Except.error GoPanic.closeOfNilChannel := by
  have h : (ds.foldl Sys.AddSensor initSys).dm.stopReading = none := by
    simpa [initSys, NewManager] using foldl_sysAddSensor_stopReading ds initSys
  refine ⟨h, ?_⟩
  unfold Sys.StopReadCycle
  rw [h]
